import Mathlib

/-!
Verification development for the FRC Event Data Fetcher
(`frc_data_fetcher.py` and `web_server.py`).

The Python program is shallowly embedded below.  External network calls
(The Blue Alliance, Statbotics) are modelled by a `Provider` record whose
operations return `Option` values: `none` models a raised exception from
the underlying client (or, for the season-metric lookup, a response that
is missing the expected data fields — both are caught by the same
`except` clause in the source).  The process-lifetime response cache
(`self._cache`, a single Python dict whose string keys are prefixed by
the operation name, hence equivalent to four disjoint typed maps) is
modelled by the `Cache` structure and threaded explicitly.  Each
operation additionally reports how many provider calls it issued, so
that caching claims about network traffic can be stated.

Python's `sorted` / `list.sort` is a stable ascending sort; any two
stable sorts with respect to the same total preorder agree extensionally,
so it is modelled by `List.insertionSort` (which is stable and, unlike
core `mergeSort`, reduces inside the kernel).
-/

namespace FRCFetch

/-- A spreadsheet cell value as produced by the fetcher: Python ints
(team numbers, ranks), floats (EPA values, modelled as rationals since
Statbotics values arrive already rounded to 2 decimals), and strings
(the `'N/A'` sentinel and the newline-joined awards text). -/
inductive Cell where
  | natCell : Nat → Cell
  | ratCell : ℚ → Cell
  | strCell : String → Cell
deriving DecidableEq, Repr

/-- Embeds the `TeamStats` dataclass: `epa: float | str`, `rank: int | str`. -/
structure TeamStats where
  epa : Cell
  rank : Cell
deriving DecidableEq, Repr

/-- Embeds `TeamStats.empty()`: `cls(epa='N/A', rank='N/A')`. -/
def TeamStats.empty : TeamStats := ⟨Cell.strCell "N/A", Cell.strCell "N/A"⟩

/-- An award object returned by `get_team_event_awards`, of which the
source uses the `event_key` and `name` attributes. -/
structure Award where
  event_key : String
  name : String
deriving DecidableEq, Repr

/-- The two remote data providers, as an opaque environment.  `none`
models a raised exception inside the corresponding `try` block:
`getTeamYear` covers `sb.get_team_year` together with the subsequent
dict accesses (a missing-data response raises `KeyError`, caught by the
same `except`), and its `some (epa, rank)` value carries the already
rounded EPA; `getEventTeamsSimple` returns the `team_number` projection
of the response objects. -/
structure Provider where
  getTeamYear : Nat → Int → Option (ℚ × Nat)
  getTeamEventsByYearKeys : Nat → Int → Option (List String)
  getTeamEventAwards : Nat → String → Option (List Award)
  getEventTeamsSimple : String → Option (List Nat)

/-- Association-list lookup, modelling Python dict lookup
(`if cache_key in self._cache: return self._cache[cache_key]`).
Insertion is modelled by prepending, so the newest binding wins,
matching dict overwrite semantics. -/
def alookup {α β : Type} [DecidableEq α] (k : α) : List (α × β) → Option β
  | [] => none
  | (k', v) :: rest => if k = k' then some v else alookup k rest

/-- The response cache `self._cache`.  The Python source uses one dict
with string keys `"sb_{t}_{y}"`, `"events_{t}_{y}"`, `"awards_{t}_{ek}"`,
`"teams_{ek}"`; the operation-name prefixes make the four key spaces
disjoint, so the dict is represented as four typed association lists
keyed by the raw arguments. -/
structure Cache where
  sb : List ((Nat × Int) × TeamStats)
  events : List ((Nat × Int) × List String)
  awards : List ((Nat × String) × List String)
  teams : List (String × List Nat)
deriving DecidableEq, Repr

/-- The cache at fetcher construction time (`self._cache = {}`). -/
def Cache.empty : Cache := ⟨[], [], [], []⟩

/-- Python `range(start, stop)` over integers. -/
def pyRange (start stop : Int) : List Int :=
  (List.range (stop - start).toNat).map (fun (i : Nat) => start + (i : Int))

/-- Python `range(start, stop)` over naturals (used for the cell-writing
loops, whose bounds are nonnegative). -/
def pyRangeNat (start stop : Nat) : List Nat :=
  (List.range (stop - start)).map (fun i => start + i)

/-- Python `sorted` on a list of ints: the stable ascending sort. -/
def pySorted (l : List Nat) : List Nat := l.insertionSort (· ≤ ·)

/-- The f-string `f"{award.event_key} - {award.name}"`. -/
def awardStr (a : Award) : String := a.event_key ++ " - " ++ a.name

/-- Embeds `FRCDataFetcher.get_event_teams`: cache hit returns the stored
roster with no provider call; otherwise the provider is consulted, a
successful response is sorted and cached, and a failure raises
`RuntimeError` (modelled as `Except.error`), which is never cached.
The third component counts provider calls issued (0 or 1). -/
def get_event_teams (p : Provider) (event_key : String) (c : Cache) :
    Except String (List Nat) × Cache × Nat :=
  match alookup event_key c.teams with
  | some ts => (Except.ok ts, c, 0)
  | none =>
    match p.getEventTeamsSimple event_key with
    | some response =>
        let teams := pySorted response
        (Except.ok teams, { c with teams := (event_key, teams) :: c.teams }, 1)
    | none =>
        (Except.error ("Could not fetch teams for event " ++ event_key ++
          ". Please check your internet connection and API key."), c, 1)

/-- Embeds `FRCDataFetcher.get_team_statbotics`: cache hit returns the
stored stats with no provider call; a successful provider call is cached;
a failed call returns `TeamStats.empty()` and — as in the source, where
the `except` branch returns without touching `self._cache` — stores
nothing. -/
def get_team_statbotics (p : Provider) (team_number : Nat) (year : Int) (c : Cache) :
    TeamStats × Cache × Nat :=
  match alookup (team_number, year) c.sb with
  | some st => (st, c, 0)
  | none =>
    match p.getTeamYear team_number year with
    | some qr =>
        let stats : TeamStats := ⟨Cell.ratCell qr.1, Cell.natCell qr.2⟩
        (stats, { c with sb := ((team_number, year), stats) :: c.sb }, 1)
    | none => (TeamStats.empty, c, 1)

/-- Embeds `FRCDataFetcher.get_team_events`: error path returns `[]`
without caching. -/
def get_team_events (p : Provider) (team_number : Nat) (year : Int) (c : Cache) :
    List String × Cache × Nat :=
  match alookup (team_number, year) c.events with
  | some es => (es, c, 0)
  | none =>
    match p.getTeamEventsByYearKeys team_number year with
    | some es => (es, { c with events := ((team_number, year), es) :: c.events }, 1)
    | none => ([], c, 1)

/-- Embeds `FRCDataFetcher.get_team_event_awards`: a successful response
is formatted (`f"{award.event_key} - {award.name}"`) and cached; the
error path returns `[]` without caching. -/
def get_team_event_awards (p : Provider) (team_number : Nat) (event_key : String) (c : Cache) :
    List String × Cache × Nat :=
  match alookup (team_number, event_key) c.awards with
  | some aws => (aws, c, 0)
  | none =>
    match p.getTeamEventAwards team_number event_key with
    | some response =>
        let aws := response.map awardStr
        (aws, { c with awards := ((team_number, event_key), aws) :: c.awards }, 1)
    | none => ([], c, 1)

/-- The `Team-Year Row Fragment` produced by `fetch_team_year_data`:
the dict `{'epa': ..., 'rank': ..., 'awards': ...}`. -/
structure YearData where
  epa : Cell
  rank : Cell
  awards : String
deriving DecidableEq, Repr

/-- The awards-gathering loop of `fetch_team_year_data`:
`for event in events: all_awards.extend(get_team_event_awards(...))`. -/
def awardsLoop (p : Provider) (team_number : Nat) :
    List String → Cache → List String × Cache × Nat
  | [], c => ([], c, 0)
  | e :: es, c =>
    let r1 := get_team_event_awards p team_number e c
    let r2 := awardsLoop p team_number es r1.2.1
    (r1.1 ++ r2.1, r2.2.1, r1.2.2 + r2.2.2)

/-- Embeds `FRCDataFetcher.fetch_team_year_data`: Statbotics stats, then
the team's events for the year, then one awards lookup per event in the
order the events were returned, newline-joined
(`'\n'.join(all_awards) if all_awards else ''`). -/
def fetch_team_year_data (p : Provider) (team_number : Nat) (year : Int) (c : Cache) :
    YearData × Cache × Nat :=
  let s := get_team_statbotics p team_number year c
  let e := get_team_events p team_number year s.2.1
  let a := awardsLoop p team_number e.1 e.2.1
  (⟨s.1.epa, s.1.rank, if a.1 = [] then "" else String.intercalate "\n" a.1⟩,
   a.2.1, s.2.2 + e.2.2 + a.2.2)

/-- The year loop of `fetch_team_data`:
`for year in range(start_year, end_year + 1): items.extend([epa, rank, awards])`. -/
def yearLoop (p : Provider) (team_number : Nat) :
    List Int → Cache → List Cell × Cache × Nat
  | [], c => ([], c, 0)
  | y :: ys, c =>
    let d := fetch_team_year_data p team_number y c
    let rest := yearLoop p team_number ys d.2.1
    ([d.1.epa, d.1.rank, Cell.strCell d.1.awards] ++ rest.1, rest.2.1, d.2.2 + rest.2.2)

/-- Embeds `FRCDataFetcher.fetch_team_data`: `items = [team_number]`,
then the per-year fragments for `range(start_year, end_year + 1)`. -/
def fetch_team_data (p : Provider) (team_number : Nat) (start_year end_year : Int) (c : Cache) :
    List Cell × Cache × Nat :=
  let r := yearLoop p team_number (pyRange start_year (end_year + 1)) c
  (Cell.natCell team_number :: r.1, r.2.1, r.2.2)

/-- The sort key `lambda x: x[0]` of `all_data.sort`: the first cell of
a data row, which `fetch_team_data` always makes the team number. -/
def rowTeam : List Cell → Nat
  | Cell.natCell n :: _ => n
  | _ => 0

/-- The `as_completed` collection loop of `export_to_excel` /
`export_with_progress`, taken in task completion order: each successful
task's row is appended to `all_data`, with the shared cache threaded
through.  (Raised tasks are handled by filtering the completion order
before this loop; see `runBatch`.) -/
def batchCollect (p : Provider) (start_year end_year : Int) :
    List Nat → Cache → List (List Cell) × Cache
  | [], c => ([], c)
  | t :: ts, c =>
    let r := fetch_team_data p t start_year end_year c
    let rest := batchCollect p start_year end_year ts r.2.1
    (r.1 :: rest.1, rest.2)

/-- Embeds `all_data.sort(key=lambda x: x[0])`: Python's stable ascending
sort by the first cell. -/
def sortRows (rows : List (List Cell)) : List (List Cell) :=
  rows.insertionSort (fun a b => rowTeam a ≤ rowTeam b)

/-- The data phase of `export_to_excel` / `export_with_progress`:
`order` is the order in which the worker-pool futures complete (a
permutation of the submitted teams), `failed t` says whether team `t`'s
task raised (such teams are logged and skipped by the `except` branch);
the surviving rows are collected in completion order and then sorted by
team number. -/
def runBatch (p : Provider) (start_year end_year : Int)
    (order : List Nat) (failed : Nat → Bool) (c : Cache) : List (List Cell) :=
  sortRows (batchCollect p start_year end_year (order.filter (fun t => !failed t)) c).1

/-- The header row built by `export_to_excel`: `['Team']` extended with
`[f'{year} EPA', f'{year} Rank', f'{year} Awards']` for each year in
`range(start_year, event_year + 1)` where
`start_year = event_year - years_to_fetch + 1`. -/
def makeHeaders (event_year : Int) (years_to_fetch : Nat) : List String :=
  let start_year := event_year - years_to_fetch + 1
  "Team" :: (pyRange start_year (event_year + 1)).flatMap
    (fun year => [toString year ++ " EPA", toString year ++ " Rank", toString year ++ " Awards"])

/-- The header row built by `FetchTask.export_with_progress` in
`web_server.py`: the same per-year headers, followed unconditionally by
`['Wins', 'Finalists', 'Impact', 'EI']`. -/
def webHeaders (event_year : Int) (years_to_fetch : Nat) : List String :=
  let start_year := event_year - years_to_fetch + 1
  ("Team" :: (pyRange start_year (event_year + 1)).flatMap
    (fun year => [toString year ++ " EPA", toString year ++ " Rank", toString year ++ " Awards"]))
    ++ ["Wins", "Finalists", "Impact", "EI"]

/-- The cell-writing loop shared by both export variants:
`for row in range(1, len(all_data) + 1): for col in range(1, len(all_data[row - 1]) + 1):
ws.cell(row + 1, col).value = all_data[row - 1][col - 1]`.  Each emitted
element is `((sheet row, sheet column), value)`; sheet row 1 holds the
header.  The `getD` defaults are never reached: both indices are in
range by construction (proved in `writeData_eq_enum`). -/
def writeData (all_data : List (List Cell)) : List ((Nat × Nat) × Cell) :=
  (pyRangeNat 1 (all_data.length + 1)).flatMap (fun row =>
    (pyRangeNat 1 ((all_data.getD (row - 1) []).length + 1)).map (fun col =>
      ((row + 1, col), (all_data.getD (row - 1) []).getD (col - 1) (Cell.natCell 0))))

/-- The full output produced by one export: header row, sorted data
rows, and the individual cell writes. -/
structure RunOutput where
  headers : List String
  rows : List (List Cell)
  writes : List ((Nat × Nat) × Cell)
deriving Repr

/-- The export pipeline of `export_to_excel` (console variant), from the
team list to the written sheet. -/
def export_to_excel_model (p : Provider) (event_year : Int) (years_to_fetch : Nat)
    (order : List Nat) (failed : Nat → Bool) (c : Cache) : RunOutput :=
  let start_year := event_year - years_to_fetch + 1
  let rows := runBatch p start_year event_year order failed c
  ⟨makeHeaders event_year years_to_fetch, rows, writeData rows⟩

/-- Embeds the data flow of `main()`: the roster lookup happens before
any export work, and an exception from it propagates to the top-level
handler (`Except.error`), so no output is attempted.  `order` and
`failed` describe the scheduler nondeterminism of the subsequent batch. -/
def main_model (p : Provider) (event_year : Int) (event_code : String)
    (years_to_fetch : Nat) (order : List Nat) (failed : Nat → Bool) :
    Except String RunOutput :=
  let event_key := toString event_year ++ event_code
  let r := get_event_teams p event_key Cache.empty
  match r.1 with
  | Except.error e => Except.error e
  | Except.ok _ =>
      Except.ok (export_to_excel_model p event_year years_to_fetch order failed r.2.1)

/-- The deep-search roster loop of `FetchTask.run`:
`for year in range(event_year - deep_search_years + 1, event_year + 1):
teams.extend(fetcher.get_event_teams(f"{year}{event_code}"))`.  A raised
roster lookup propagates out of the loop. -/
def deepSearchLoop (p : Provider) (event_code : String) :
    List Int → List Nat → Cache → Except String (List Nat) × Cache
  | [], teams, c => (Except.ok teams, c)
  | y :: ys, teams, c =>
    let r := get_event_teams p (toString y ++ event_code) c
    match r.1 with
    | Except.ok year_teams => deepSearchLoop p event_code ys (teams ++ year_teams) r.2.1
    | Except.error e => (Except.error e, r.2.1)

/-- The deep-search team set of `FetchTask.run`: the union loop followed
by `teams = list(set(teams))`.  A Python set iterates in an unspecified
order, so the deduplication is modelled by `List.dedup`; every theorem
proved about the result is order-independent (`Nodup` and `Perm`). -/
def deepSearchTeams (p : Provider) (event_year : Int) (deep_search_years : Nat)
    (event_code : String) (c : Cache) : Except String (List Nat) × Cache :=
  let span := pyRange (event_year - deep_search_years + 1) (event_year + 1)
  let r := deepSearchLoop p event_code span [] c
  match r.1 with
  | Except.ok teams => (Except.ok teams.dedup, r.2)
  | Except.error e => (Except.error e, r.2)

/-- The progress-emission pattern of the `as_completed` loop in both
export variants: `outcomes` lists, in completion order, whether each
settled task succeeded.  `completed += 1` happens for every settled
task, but the progress update (`print(f"Progress: {completed}/{len(teams)}...")`
resp. `self.progress = ...; self.detail = f"Processed {completed}/{len(teams)} teams"`)
sits inside the `try` success branch, so a report `(completed, total)`
is emitted only when `future.result()` did not raise. -/
def progressReportsAux (total : Nat) : List Bool → Nat → List (Nat × Nat)
  | [], _ => []
  | ok :: rest, completed =>
    let completed' := completed + 1
    if ok then (completed', total) :: progressReportsAux total rest completed'
    else progressReportsAux total rest completed'

/-- The list of `(completedCount, totalCount)` progress reports emitted
during one batch, where `totalCount = len(teams)` is the number of
submitted tasks. -/
def progressReports (outcomes : List Bool) : List (Nat × Nat) :=
  progressReportsAux outcomes.length outcomes 0

/-! ### Cache-free reference semantics

The cached operations are refined by the following pure functions of the
provider alone; the `Coherent` invariant states that every cache entry
is the value the provider would produce, which holds for the empty cache
and is preserved by every operation. -/

/-- What `get_team_statbotics` computes on a cache miss. -/
def sbSpec (p : Provider) (t : Nat) (y : Int) : TeamStats :=
  match p.getTeamYear t y with
  | some qr => ⟨Cell.ratCell qr.1, Cell.natCell qr.2⟩
  | none => TeamStats.empty

/-- What `get_team_events` computes on a cache miss. -/
def eventsSpec (p : Provider) (t : Nat) (y : Int) : List String :=
  (p.getTeamEventsByYearKeys t y).getD []

/-- What `get_team_event_awards` computes on a cache miss. -/
def awardsSpec (p : Provider) (t : Nat) (e : String) : List String :=
  ((p.getTeamEventAwards t e).getD []).map awardStr

/-- What `get_event_teams` computes on a cache miss. -/
def eventTeamsSpec (p : Provider) (k : String) : Except String (List Nat) :=
  match p.getEventTeamsSimple k with
  | some raw => Except.ok (pySorted raw)
  | none => Except.error ("Could not fetch teams for event " ++ k ++
      ". Please check your internet connection and API key.")

/-- The ordered concatenation of the award lists of a team's events for
one year, in the order the events were returned. -/
def yearAwardsSpec (p : Provider) (t : Nat) (y : Int) : List String :=
  (eventsSpec p t y).flatMap (fun e => awardsSpec p t e)

/-- The `Team-Year Row Fragment` as a pure function of the provider. -/
def teamYearSpec (p : Provider) (t : Nat) (y : Int) : YearData :=
  ⟨(sbSpec p t y).epa, (sbSpec p t y).rank,
   if yearAwardsSpec p t y = [] then ""
   else String.intercalate "\n" (yearAwardsSpec p t y)⟩

/-- The three cells a year contributes to an output row. -/
def fragSpec (p : Provider) (t : Nat) (y : Int) : List Cell :=
  [(teamYearSpec p t y).epa, (teamYearSpec p t y).rank,
   Cell.strCell (teamYearSpec p t y).awards]

/-- A full output row as a pure function of the provider. -/
def teamRowSpec (p : Provider) (t : Nat) (start_year end_year : Int) : List Cell :=
  Cell.natCell t :: (pyRange start_year (end_year + 1)).flatMap (fragSpec p t)

/-- Cache coherence: every cached entry is exactly the value a fresh
computation against `p` would produce (in particular, only successful
results are ever cached). -/
structure Coherent (p : Provider) (c : Cache) : Prop where
  sb : ∀ t y st, alookup (t, y) c.sb = some st →
    ∃ qr, p.getTeamYear t y = some qr ∧ st = ⟨Cell.ratCell qr.1, Cell.natCell qr.2⟩
  events : ∀ t y es, alookup (t, y) c.events = some es →
    p.getTeamEventsByYearKeys t y = some es
  awards : ∀ t e aws, alookup (t, e) c.awards = some aws →
    ∃ raw, p.getTeamEventAwards t e = some raw ∧ aws = raw.map awardStr
  teams : ∀ k ts, alookup k c.teams = some ts →
    ∃ raw, p.getEventTeamsSimple k = some raw ∧ ts = pySorted raw

/-- The empty cache is coherent with every provider. -/
theorem coherent_empty (p : Provider) : Coherent p Cache.empty := by
  constructor
  · intro t y st h; simp [Cache.empty, alookup] at h
  · intro t y es h; simp [Cache.empty, alookup] at h
  · intro t e aws h; simp [Cache.empty, alookup] at h
  · intro k ts h; simp [Cache.empty, alookup] at h

/-- A concrete provider used to instantiate hypothesis-bearing theorems:
team 1 has 2024 data (EPA 29, rank 10), two 2024 events, and one award
at the first of them; event key `"2024abc"` has a roster; everything
else fails. -/
def pSample : Provider where
  getTeamYear := fun t y => if t = 1 ∧ y = 2024 then some (29, 10) else none
  getTeamEventsByYearKeys := fun t y =>
    if t = 1 ∧ y = 2024 then some ["2024abc", "2024def"] else none
  getTeamEventAwards := fun t e =>
    if t = 1 ∧ e = "2024abc" then some [⟨"2024abc", "Winner"⟩] else none
  getEventTeamsSimple := fun k => if k = "2024abc" then some [254, 100, 9999] else none

/-! ### Computation lemmas for the four cached operations -/

theorem alookup_cons {α β : Type} [DecidableEq α] (k k' : α) (v : β) (l : List (α × β)) :
    alookup k ((k', v) :: l) = if k = k' then some v else alookup k l := rfl

theorem sb_hit (p : Provider) (t : Nat) (y : Int) (c : Cache) (st : TeamStats)
    (h : alookup (t, y) c.sb = some st) :
    get_team_statbotics p t y c = (st, c, 0) := by
  unfold get_team_statbotics; rw [h]

theorem sb_miss_some (p : Provider) (t : Nat) (y : Int) (c : Cache) (qr : ℚ × Nat)
    (h1 : alookup (t, y) c.sb = none) (h2 : p.getTeamYear t y = some qr) :
    get_team_statbotics p t y c =
      (⟨Cell.ratCell qr.1, Cell.natCell qr.2⟩,
       { c with sb := ((t, y), ⟨Cell.ratCell qr.1, Cell.natCell qr.2⟩) :: c.sb }, 1) := by
  unfold get_team_statbotics; rw [h1, h2]

theorem sb_miss_none (p : Provider) (t : Nat) (y : Int) (c : Cache)
    (h1 : alookup (t, y) c.sb = none) (h2 : p.getTeamYear t y = none) :
    get_team_statbotics p t y c = (TeamStats.empty, c, 1) := by
  unfold get_team_statbotics; rw [h1, h2]

theorem ev_hit (p : Provider) (t : Nat) (y : Int) (c : Cache) (es : List String)
    (h : alookup (t, y) c.events = some es) :
    get_team_events p t y c = (es, c, 0) := by
  unfold get_team_events; rw [h]

theorem ev_miss_some (p : Provider) (t : Nat) (y : Int) (c : Cache) (es : List String)
    (h1 : alookup (t, y) c.events = none) (h2 : p.getTeamEventsByYearKeys t y = some es) :
    get_team_events p t y c = (es, { c with events := ((t, y), es) :: c.events }, 1) := by
  unfold get_team_events; rw [h1, h2]

theorem ev_miss_none (p : Provider) (t : Nat) (y : Int) (c : Cache)
    (h1 : alookup (t, y) c.events = none) (h2 : p.getTeamEventsByYearKeys t y = none) :
    get_team_events p t y c = ([], c, 1) := by
  unfold get_team_events; rw [h1, h2]

theorem aw_hit (p : Provider) (t : Nat) (e : String) (c : Cache) (aws : List String)
    (h : alookup (t, e) c.awards = some aws) :
    get_team_event_awards p t e c = (aws, c, 0) := by
  unfold get_team_event_awards; rw [h]

theorem aw_miss_some (p : Provider) (t : Nat) (e : String) (c : Cache) (raw : List Award)
    (h1 : alookup (t, e) c.awards = none) (h2 : p.getTeamEventAwards t e = some raw) :
    get_team_event_awards p t e c =
      (raw.map awardStr, { c with awards := ((t, e), raw.map awardStr) :: c.awards }, 1) := by
  unfold get_team_event_awards; rw [h1, h2]

theorem aw_miss_none (p : Provider) (t : Nat) (e : String) (c : Cache)
    (h1 : alookup (t, e) c.awards = none) (h2 : p.getTeamEventAwards t e = none) :
    get_team_event_awards p t e c = ([], c, 1) := by
  unfold get_team_event_awards; rw [h1, h2]

theorem teams_hit (p : Provider) (k : String) (c : Cache) (ts : List Nat)
    (h : alookup k c.teams = some ts) :
    get_event_teams p k c = (Except.ok ts, c, 0) := by
  unfold get_event_teams; rw [h]

theorem teams_miss_some (p : Provider) (k : String) (c : Cache) (raw : List Nat)
    (h1 : alookup k c.teams = none) (h2 : p.getEventTeamsSimple k = some raw) :
    get_event_teams p k c =
      (Except.ok (pySorted raw), { c with teams := (k, pySorted raw) :: c.teams }, 1) := by
  unfold get_event_teams; rw [h1, h2]

theorem teams_miss_none (p : Provider) (k : String) (c : Cache)
    (h1 : alookup k c.teams = none) (h2 : p.getEventTeamsSimple k = none) :
    get_event_teams p k c =
      (Except.error ("Could not fetch teams for event " ++ k ++
        ". Please check your internet connection and API key."), c, 1) := by
  unfold get_event_teams; rw [h1, h2]

/-! ### Coherence preservation and refinement to the pure semantics -/

theorem coherent_insert_sb (p : Provider) (c : Cache) (t : Nat) (y : Int) (qr : ℚ × Nat)
    (hc : Coherent p c) (h : p.getTeamYear t y = some qr) :
    Coherent p { c with sb := ((t, y), ⟨Cell.ratCell qr.1, Cell.natCell qr.2⟩) :: c.sb } := by
  refine ⟨?_, hc.events, hc.awards, hc.teams⟩
  intro t' y' st' hl
  rw [alookup_cons] at hl
  by_cases hk : ((t', y') : Nat × Int) = (t, y)
  · rw [if_pos hk] at hl
    obtain ⟨rfl, rfl⟩ := Prod.mk.injEq .. ▸ hk
    exact ⟨qr, h, (Option.some.injEq .. ▸ hl).symm⟩
  · rw [if_neg hk] at hl
    exact hc.sb t' y' st' hl

theorem coherent_insert_events (p : Provider) (c : Cache) (t : Nat) (y : Int) (es : List String)
    (hc : Coherent p c) (h : p.getTeamEventsByYearKeys t y = some es) :
    Coherent p { c with events := ((t, y), es) :: c.events } := by
  refine ⟨hc.sb, ?_, hc.awards, hc.teams⟩
  intro t' y' es' hl
  rw [alookup_cons] at hl
  by_cases hk : ((t', y') : Nat × Int) = (t, y)
  · rw [if_pos hk] at hl
    obtain ⟨rfl, rfl⟩ := Prod.mk.injEq .. ▸ hk
    rw [h, hl]
  · rw [if_neg hk] at hl
    exact hc.events t' y' es' hl

theorem coherent_insert_awards (p : Provider) (c : Cache) (t : Nat) (e : String)
    (raw : List Award) (hc : Coherent p c) (h : p.getTeamEventAwards t e = some raw) :
    Coherent p { c with awards := ((t, e), raw.map awardStr) :: c.awards } := by
  refine ⟨hc.sb, hc.events, ?_, hc.teams⟩
  intro t' e' aws' hl
  rw [alookup_cons] at hl
  by_cases hk : ((t', e') : Nat × String) = (t, e)
  · rw [if_pos hk] at hl
    obtain ⟨rfl, rfl⟩ := Prod.mk.injEq .. ▸ hk
    exact ⟨raw, h, (Option.some.injEq .. ▸ hl).symm⟩
  · rw [if_neg hk] at hl
    exact hc.awards t' e' aws' hl

theorem coherent_insert_teams (p : Provider) (c : Cache) (k : String) (raw : List Nat)
    (hc : Coherent p c) (h : p.getEventTeamsSimple k = some raw) :
    Coherent p { c with teams := (k, pySorted raw) :: c.teams } := by
  refine ⟨hc.sb, hc.events, hc.awards, ?_⟩
  intro k' ts' hl
  rw [alookup_cons] at hl
  by_cases hk : k' = k
  · rw [if_pos hk] at hl
    subst hk
    exact ⟨raw, h, (Option.some.injEq .. ▸ hl).symm⟩
  · rw [if_neg hk] at hl
    exact hc.teams k' ts' hl

theorem get_team_statbotics_spec (p : Provider) (t : Nat) (y : Int) (c : Cache)
    (hc : Coherent p c) :
    (get_team_statbotics p t y c).1 = sbSpec p t y ∧
    Coherent p (get_team_statbotics p t y c).2.1 := by
  cases hl : alookup (t, y) c.sb with
  | some st =>
      obtain ⟨qr, hq, hst⟩ := hc.sb t y st hl
      rw [sb_hit p t y c st hl]
      exact ⟨by rw [hst]; unfold sbSpec; rw [hq], hc⟩
  | none =>
      cases hp : p.getTeamYear t y with
      | some qr =>
          rw [sb_miss_some p t y c qr hl hp]
          exact ⟨by unfold sbSpec; rw [hp], coherent_insert_sb p c t y qr hc hp⟩
      | none =>
          rw [sb_miss_none p t y c hl hp]
          exact ⟨by unfold sbSpec; rw [hp], hc⟩

theorem get_team_events_spec (p : Provider) (t : Nat) (y : Int) (c : Cache)
    (hc : Coherent p c) :
    (get_team_events p t y c).1 = eventsSpec p t y ∧
    Coherent p (get_team_events p t y c).2.1 := by
  cases hl : alookup (t, y) c.events with
  | some es =>
      have hq := hc.events t y es hl
      rw [ev_hit p t y c es hl]
      exact ⟨by unfold eventsSpec; rw [hq]; rfl, hc⟩
  | none =>
      cases hp : p.getTeamEventsByYearKeys t y with
      | some es =>
          rw [ev_miss_some p t y c es hl hp]
          exact ⟨by unfold eventsSpec; rw [hp]; rfl,
            coherent_insert_events p c t y es hc hp⟩
      | none =>
          rw [ev_miss_none p t y c hl hp]
          exact ⟨by unfold eventsSpec; rw [hp]; rfl, hc⟩

theorem get_team_event_awards_spec (p : Provider) (t : Nat) (e : String) (c : Cache)
    (hc : Coherent p c) :
    (get_team_event_awards p t e c).1 = awardsSpec p t e ∧
    Coherent p (get_team_event_awards p t e c).2.1 := by
  cases hl : alookup (t, e) c.awards with
  | some aws =>
      obtain ⟨raw, hq, haw⟩ := hc.awards t e aws hl
      rw [aw_hit p t e c aws hl]
      exact ⟨by rw [haw]; unfold awardsSpec; rw [hq]; rfl, hc⟩
  | none =>
      cases hp : p.getTeamEventAwards t e with
      | some raw =>
          rw [aw_miss_some p t e c raw hl hp]
          exact ⟨by unfold awardsSpec; rw [hp]; rfl,
            coherent_insert_awards p c t e raw hc hp⟩
      | none =>
          rw [aw_miss_none p t e c hl hp]
          exact ⟨by unfold awardsSpec; rw [hp]; rfl, hc⟩

theorem get_event_teams_spec (p : Provider) (k : String) (c : Cache)
    (hc : Coherent p c) :
    (get_event_teams p k c).1 = eventTeamsSpec p k ∧
    Coherent p (get_event_teams p k c).2.1 := by
  cases hl : alookup k c.teams with
  | some ts =>
      obtain ⟨raw, hq, hts⟩ := hc.teams k ts hl
      rw [teams_hit p k c ts hl]
      exact ⟨by rw [hts]; unfold eventTeamsSpec; rw [hq], hc⟩
  | none =>
      cases hp : p.getEventTeamsSimple k with
      | some raw =>
          rw [teams_miss_some p k c raw hl hp]
          exact ⟨by unfold eventTeamsSpec; rw [hp],
            coherent_insert_teams p c k raw hc hp⟩
      | none =>
          rw [teams_miss_none p k c hl hp]
          exact ⟨by unfold eventTeamsSpec; rw [hp], hc⟩

theorem awardsLoop_spec (p : Provider) (t : Nat) (es : List String) (c : Cache)
    (hc : Coherent p c) :
    (awardsLoop p t es c).1 = es.flatMap (fun e => awardsSpec p t e) ∧
    Coherent p (awardsLoop p t es c).2.1 := by
  induction es generalizing c with
  | nil => exact ⟨rfl, hc⟩
  | cons e es ih =>
      obtain ⟨h1, hc1⟩ := get_team_event_awards_spec p t e c hc
      obtain ⟨h2, hc2⟩ := ih _ hc1
      unfold awardsLoop
      exact ⟨by rw [List.flatMap_cons, ← h1, ← h2], hc2⟩

theorem fetch_team_year_data_spec (p : Provider) (t : Nat) (y : Int) (c : Cache)
    (hc : Coherent p c) :
    (fetch_team_year_data p t y c).1 = teamYearSpec p t y ∧
    Coherent p (fetch_team_year_data p t y c).2.1 := by
  obtain ⟨h1, hc1⟩ := get_team_statbotics_spec p t y c hc
  obtain ⟨h2, hc2⟩ := get_team_events_spec p t y (get_team_statbotics p t y c).2.1 hc1
  obtain ⟨h3, hc3⟩ := awardsLoop_spec p t (get_team_events p t y (get_team_statbotics p t y c).2.1).1
    (get_team_events p t y (get_team_statbotics p t y c).2.1).2.1 hc2
  refine ⟨?_, hc3⟩
  unfold fetch_team_year_data teamYearSpec yearAwardsSpec
  simp only [h3]
  simp only [h1, h2]

theorem yearLoop_spec (p : Provider) (t : Nat) (ys : List Int) (c : Cache)
    (hc : Coherent p c) :
    (yearLoop p t ys c).1 = ys.flatMap (fragSpec p t) ∧
    Coherent p (yearLoop p t ys c).2.1 := by
  induction ys generalizing c with
  | nil => exact ⟨rfl, hc⟩
  | cons y ys ih =>
      obtain ⟨h1, hc1⟩ := fetch_team_year_data_spec p t y c hc
      obtain ⟨h2, hc2⟩ := ih _ hc1
      refine ⟨?_, hc2⟩
      unfold yearLoop
      simp only [List.flatMap_cons, h1, h2, fragSpec]

theorem fetch_team_data_spec (p : Provider) (t : Nat) (start_year end_year : Int) (c : Cache)
    (hc : Coherent p c) :
    (fetch_team_data p t start_year end_year c).1 = teamRowSpec p t start_year end_year ∧
    Coherent p (fetch_team_data p t start_year end_year c).2.1 := by
  obtain ⟨h1, hc1⟩ := yearLoop_spec p t (pyRange start_year (end_year + 1)) c hc
  unfold fetch_team_data teamRowSpec
  exact ⟨by rw [← h1], hc1⟩

theorem batchCollect_spec (p : Provider) (start_year end_year : Int) (ts : List Nat) (c : Cache)
    (hc : Coherent p c) :
    (batchCollect p start_year end_year ts c).1 =
      ts.map (fun t => teamRowSpec p t start_year end_year) ∧
    Coherent p (batchCollect p start_year end_year ts c).2 := by
  induction ts generalizing c with
  | nil => exact ⟨rfl, hc⟩
  | cons t ts ih =>
      obtain ⟨h1, hc1⟩ := fetch_team_data_spec p t start_year end_year c hc
      obtain ⟨h2, hc2⟩ := ih _ hc1
      unfold batchCollect
      exact ⟨by rw [List.map_cons, ← h1, ← h2], hc2⟩

/-- The first cell of every fetched row is the team number, for any
cache state — `items = [team_number]` before the year loop. -/
theorem rowTeam_fetch_team_data (p : Provider) (t : Nat) (start_year end_year : Int) (c : Cache) :
    rowTeam (fetch_team_data p t start_year end_year c).1 = t := rfl

/-- The team numbers of the rows collected in completion order are
exactly the settled teams, in that order, for any cache state. -/
theorem batchCollect_map_rowTeam (p : Provider) (start_year end_year : Int)
    (ts : List Nat) (c : Cache) :
    ((batchCollect p start_year end_year ts c).1).map rowTeam = ts := by
  induction ts generalizing c with
  | nil => rfl
  | cons t ts ih =>
      unfold batchCollect
      rw [List.map_cons, rowTeam_fetch_team_data, ih]

/-! ### Structural lemmas: lengths, header shape, write positions, progress -/

theorem pyRange_length (start stop : Int) :
    (pyRange start stop).length = (stop - start).toNat := by
  unfold pyRange
  rw [List.length_map, List.length_range]

theorem yearLoop_length (p : Provider) (t : Nat) (ys : List Int) (c : Cache) :
    (yearLoop p t ys c).1.length = 3 * ys.length := by
  induction ys generalizing c with
  | nil => rfl
  | cons y ys ih =>
      unfold yearLoop
      simp only [List.length_append, List.length_cons, List.length_nil, ih]
      omega

/-- Every row built by `fetch_team_data` has exactly
`1 + 3 * (number of years in range)` cells, for any cache state. -/
theorem fetch_team_data_length (p : Provider) (t : Nat) (start_year end_year : Int) (c : Cache) :
    (fetch_team_data p t start_year end_year c).1.length =
      1 + 3 * (end_year + 1 - start_year).toNat := by
  unfold fetch_team_data
  simp only [List.length_cons, yearLoop_length, pyRange_length]
  omega

theorem flatMap_triple_length {α β : Type} (l : List α) (f : α → List β)
    (hf : ∀ a ∈ l, (f a).length = 3) : (l.flatMap f).length = 3 * l.length := by
  induction l with
  | nil => rfl
  | cons a l ih =>
      rw [List.flatMap_cons, List.length_append, hf a (List.mem_cons_self a l),
        ih (fun b hb => hf b (List.mem_cons_of_mem a hb)), List.length_cons]
      omega

/-- The header years of `export_to_excel` are the `years_to_fetch`
consecutive years ending at `event_year`, in ascending order. -/
theorem makeHeaders_eq (event_year : Int) (ytf : Nat) :
    makeHeaders event_year ytf = "Team" :: (List.range ytf).flatMap (fun i =>
      [toString (event_year - ytf + 1 + i) ++ " EPA",
       toString (event_year - ytf + 1 + i) ++ " Rank",
       toString (event_year - ytf + 1 + i) ++ " Awards"]) := by
  have h : (event_year + 1 - (event_year - ytf + 1)).toNat = ytf := by omega
  simp only [makeHeaders, pyRange, h]
  congr 1
  induction List.range ytf with
  | nil => rfl
  | cons i l ih => rw [List.map_cons, List.flatMap_cons, List.flatMap_cons, ih]

theorem makeHeaders_length (event_year : Int) (ytf : Nat) :
    (makeHeaders event_year ytf).length = 1 + 3 * ytf := by
  have h3 := flatMap_triple_length (pyRange (event_year - ytf + 1) (event_year + 1))
    (fun year => [toString year ++ " EPA", toString year ++ " Rank", toString year ++ " Awards"])
    (fun a _ => rfl)
  simp only [makeHeaders, List.length_cons, h3, pyRange_length]
  omega

theorem webHeaders_eq (event_year : Int) (ytf : Nat) :
    webHeaders event_year ytf =
      makeHeaders event_year ytf ++ ["Wins", "Finalists", "Impact", "EI"] := rfl

/-- Characterization of the cell-writing loop: the cells written are
exactly the cells of the data rows, with 0-based data row `i` written at
sheet row `i + 2` (the header occupies sheet row 1) and 0-based cell `j`
at sheet column `j + 1`; the `getD` defaults of `writeData` are never
exercised. -/
theorem writeData_mem_iff (l : List (List Cell)) (w : (Nat × Nat) × Cell) :
    w ∈ writeData l ↔ ∃ i j, i < l.length ∧ j < (l.getD i []).length ∧
      w = ((i + 2, j + 1), (l.getD i []).getD j (Cell.natCell 0)) := by
  unfold writeData pyRangeNat
  simp only [List.mem_flatMap, List.mem_map, List.mem_range]
  constructor
  · rintro ⟨row, ⟨⟨i, hi, rfl⟩, col, ⟨⟨j, hj, rfl⟩, rfl⟩⟩⟩
    refine ⟨i, j, by omega, by simpa using hj, ?_⟩
    have h1 : 1 + i - 1 = i := by omega
    have h2 : 1 + j - 1 = j := by omega
    have e1 : 1 + i + 1 = i + 2 := by omega
    have e2 : 1 + j = j + 1 := by omega
    rw [h1, h2, e1, e2]
  · rintro ⟨i, j, hi, hj, rfl⟩
    refine ⟨1 + i, ⟨⟨i, by omega, rfl⟩, 1 + j, ⟨⟨j, ?_, rfl⟩, ?_⟩⟩⟩
    · have h1 : 1 + i - 1 = i := by omega
      rw [h1]; omega
    · have h1 : 1 + i - 1 = i := by omega
      have h2 : 1 + j - 1 = j := by omega
      have e1 : 1 + i + 1 = i + 2 := by omega
      have e2 : 1 + j = j + 1 := by omega
      rw [h1, h2, e1, e2]

/-- Every row of the sorted batch output has exactly
`1 + 3 * (number of years in range)` cells. -/
theorem runBatch_row_length (p : Provider) (start_year end_year : Int)
    (order : List Nat) (failed : Nat → Bool) (c : Cache) (r : List Cell)
    (hr : r ∈ runBatch p start_year end_year order failed c) :
    r.length = 1 + 3 * (end_year + 1 - start_year).toNat := by
  unfold runBatch sortRows at hr
  rw [(List.perm_insertionSort _ _).mem_iff] at hr
  revert hr
  generalize order.filter (fun t => !failed t) = ts
  induction ts generalizing c with
  | nil => intro hr; simp [batchCollect] at hr
  | cons t ts ih =>
      intro hr
      unfold batchCollect at hr
      rcases List.mem_cons.mp hr with h | h
      · rw [h, fetch_team_data_length]
      · exact ih _ h

theorem progressReportsAux_eq (total : Nat) (l : List Bool) (k : Nat) :
    progressReportsAux total l k =
      ((List.enumFrom k l).filter (fun ib => ib.2)).map (fun ib => (ib.1 + 1, total)) := by
  induction l generalizing k with
  | nil => rfl
  | cons b rest ih =>
      unfold progressReportsAux
      cases b with
      | false => simp [List.enumFrom, List.filter, ih]
      | true => simp [List.enumFrom, List.filter, ih]

/-- The deep-search roster loop, when it completes without an exception,
has appended to the accumulator the (sorted) roster of every season in
the span, in span order; and every season's provider lookup was
answerable. -/
theorem deepSearchLoop_spec (p : Provider) (code : String) (ys : List Int)
    (acc : List Nat) (c : Cache) (hc : Coherent p c) (ts : List Nat)
    (h : (deepSearchLoop p code ys acc c).1 = Except.ok ts) :
    ts = acc ++ ys.flatMap
      (fun y => pySorted ((p.getEventTeamsSimple (toString y ++ code)).getD [])) ∧
    ∀ y ∈ ys, (p.getEventTeamsSimple (toString y ++ code)).isSome := by
  induction ys generalizing acc c with
  | nil =>
      refine ⟨?_, by simp⟩
      unfold deepSearchLoop at h
      simp only [List.flatMap_nil, List.append_nil]
      exact (Except.ok.injEq .. ▸ h).symm
  | cons y ys ih =>
      obtain ⟨hval, hcoh⟩ := get_event_teams_spec p (toString y ++ code) c hc
      unfold deepSearchLoop at h
      cases hp : p.getEventTeamsSimple (toString y ++ code) with
      | none =>
          unfold eventTeamsSpec at hval
          rw [hp] at hval
          simp only [hval] at h
          exact Except.noConfusion h
      | some raw =>
          unfold eventTeamsSpec at hval
          rw [hp] at hval
          simp only [hval] at h
          obtain ⟨h1, h2⟩ := ih (acc ++ pySorted raw) _ hcoh h
          constructor
          · rw [h1, List.flatMap_cons, hp, List.append_assoc]
            rfl
          · intro y' hy'
            rcases List.mem_cons.mp hy' with rfl | hmem
            · rw [hp]; rfl
            · exact h2 y' hmem

/-! ### Claim theorems -/

/-- C1: For every batch — any provider, any initial cache state — with the
worker-pool completion order an arbitrary permutation of the submitted
teams (pairwise distinct, as a roster is), the export's data phase
produces one output row per team whose aggregation task did not raise
(failed teams are skipped), and the final data rows are sorted strictly
ascending by team identifier, regardless of the order in which the
worker-pool tasks complete. -/
theorem claim1_rows_per_team_sorted (p : Provider) (start_year end_year : Int)
    (teams order : List Nat) (failed : Nat → Bool) (c : Cache)
    (hperm : order.Perm teams) (hnd : teams.Nodup) :
    (runBatch p start_year end_year order failed c).length =
      (teams.filter (fun t => !failed t)).length ∧
    List.Pairwise (fun r1 r2 => rowTeam r1 < rowTeam r2)
      (runBatch p start_year end_year order failed c) := by
  have hmap := batchCollect_map_rowTeam p start_year end_year
    (order.filter (fun t => !failed t)) c
  have hlen1 := congrArg List.length hmap
  rw [List.length_map] at hlen1
  constructor
  · unfold runBatch sortRows
    rw [(List.perm_insertionSort (fun a b => rowTeam a ≤ rowTeam b) _).length_eq,
      hlen1, (hperm.filter _).length_eq]
  · unfold runBatch sortRows
    haveI : IsTotal (List Cell) (fun a b => rowTeam a ≤ rowTeam b) :=
      ⟨fun a b => Nat.le_total (rowTeam a) (rowTeam b)⟩
    haveI : IsTrans (List Cell) (fun a b => rowTeam a ≤ rowTeam b) :=
      ⟨fun _ _ _ hab hbc => le_trans hab hbc⟩
    have hsorted := List.sorted_insertionSort (fun a b => rowTeam a ≤ rowTeam b)
      (batchCollect p start_year end_year (order.filter (fun t => !failed t)) c).1
    have hpm : (((batchCollect p start_year end_year
        (order.filter (fun t => !failed t)) c).1.insertionSort
          (fun a b => rowTeam a ≤ rowTeam b)).map rowTeam).Perm
        (order.filter (fun t => !failed t)) := by
      have h0 := (List.perm_insertionSort (fun a b => rowTeam a ≤ rowTeam b)
        (batchCollect p start_year end_year (order.filter (fun t => !failed t)) c).1).map rowTeam
      rw [hmap] at h0
      exact h0
    have hnd2 : (order.filter (fun t => !failed t)).Nodup :=
      (hperm.symm.nodup hnd).filter _
    have hnd3 := hpm.symm.nodup hnd2
    have hne : List.Pairwise (fun r1 r2 => rowTeam r1 ≠ rowTeam r2)
        ((batchCollect p start_year end_year (order.filter (fun t => !failed t)) c).1.insertionSort
          (fun a b => rowTeam a ≤ rowTeam b)) := List.pairwise_map.mp hnd3
    exact (hsorted.and hne).imp (fun hab => lt_of_le_of_ne hab.1 hab.2)

/-- Witness for C1: a two-team batch completing in reverse order, no
task failures. -/
theorem claim1_witness :
    ([2, 1] : List Nat).Perm [1, 2] ∧ ([1, 2] : List Nat).Nodup ∧
    ((runBatch pSample 2024 2024 [2, 1] (fun _ => false) Cache.empty).length =
      (([1, 2] : List Nat).filter (fun _ => !false)).length ∧
     List.Pairwise (fun r1 r2 => rowTeam r1 < rowTeam r2)
       (runBatch pSample 2024 2024 [2, 1] (fun _ => false) Cache.empty)) :=
  ⟨by decide, by decide,
   claim1_rows_per_team_sorted pSample 2024 2024 [1, 2] [2, 1] (fun _ => false)
     Cache.empty (by decide) (by decide)⟩

/-- C2 counterexample: the claim says the empty/error-equivalent result
of a failed first lookup is stored in the cache so that a second call
issues no second provider call.  In the code the `except` branches
return without writing to `self._cache`: after a failed season-metric
lookup the cache is unchanged and the second identical call issues
another provider call (call count 1, not 0). -/
theorem claim2_counterexample :
    get_team_statbotics pSample 2 2024 Cache.empty = (TeamStats.empty, Cache.empty, 1) ∧
    (get_team_statbotics pSample 2 2024
      (get_team_statbotics pSample 2 2024 Cache.empty).2.1).2.2 = 1 := by
  decide

/-- C2 (amended): for each of the three lookups (season metric, team
events, team event awards), a successful first call stores its result,
so a second call with the same arguments returns the identical stored
value and issues no second provider call; but a failed first call
stores nothing — the sentinel/empty result is returned uncached, the
cache is unchanged, and a repeat call issues another provider call. -/
theorem claim2_success_results_cached (p : Provider) (c : Cache)
    (t1 t2 t3 t4 t5 t6 : Nat) (y1 y2 y3 y4 : Int) (e5 e6 : String)
    (qr : ℚ × Nat) (es : List String) (raw : List Award)
    (h1a : alookup (t1, y1) c.sb = none) (h1b : p.getTeamYear t1 y1 = some qr)
    (h2a : alookup (t2, y2) c.sb = none) (h2b : p.getTeamYear t2 y2 = none)
    (h3a : alookup (t3, y3) c.events = none) (h3b : p.getTeamEventsByYearKeys t3 y3 = some es)
    (h4a : alookup (t4, y4) c.events = none) (h4b : p.getTeamEventsByYearKeys t4 y4 = none)
    (h5a : alookup (t5, e5) c.awards = none) (h5b : p.getTeamEventAwards t5 e5 = some raw)
    (h6a : alookup (t6, e6) c.awards = none) (h6b : p.getTeamEventAwards t6 e6 = none) :
    ((get_team_statbotics p t1 y1 c).2.2 = 1 ∧
     get_team_statbotics p t1 y1 (get_team_statbotics p t1 y1 c).2.1 =
       ((get_team_statbotics p t1 y1 c).1, (get_team_statbotics p t1 y1 c).2.1, 0)) ∧
    (get_team_statbotics p t2 y2 c = (TeamStats.empty, c, 1) ∧
     (get_team_statbotics p t2 y2 (get_team_statbotics p t2 y2 c).2.1).2.2 = 1) ∧
    ((get_team_events p t3 y3 c).2.2 = 1 ∧
     get_team_events p t3 y3 (get_team_events p t3 y3 c).2.1 =
       ((get_team_events p t3 y3 c).1, (get_team_events p t3 y3 c).2.1, 0)) ∧
    (get_team_events p t4 y4 c = ([], c, 1) ∧
     (get_team_events p t4 y4 (get_team_events p t4 y4 c).2.1).2.2 = 1) ∧
    ((get_team_event_awards p t5 e5 c).2.2 = 1 ∧
     get_team_event_awards p t5 e5 (get_team_event_awards p t5 e5 c).2.1 =
       ((get_team_event_awards p t5 e5 c).1, (get_team_event_awards p t5 e5 c).2.1, 0)) ∧
    (get_team_event_awards p t6 e6 c = ([], c, 1) ∧
     (get_team_event_awards p t6 e6 (get_team_event_awards p t6 e6 c).2.1).2.2 = 1) := by
  have s1 := sb_miss_some p t1 y1 c qr h1a h1b
  have s2 := sb_miss_none p t2 y2 c h2a h2b
  have s3 := ev_miss_some p t3 y3 c es h3a h3b
  have s4 := ev_miss_none p t4 y4 c h4a h4b
  have s5 := aw_miss_some p t5 e5 c raw h5a h5b
  have s6 := aw_miss_none p t6 e6 c h6a h6b
  refine ⟨⟨by rw [s1], ?_⟩, ⟨s2, ?_⟩, ⟨by rw [s3], ?_⟩, ⟨s4, ?_⟩, ⟨by rw [s5], ?_⟩, ⟨s6, ?_⟩⟩
  · simp only [s1]
    exact sb_hit _ _ _ _ _ (by rw [alookup_cons, if_pos rfl])
  · simp only [s2]
  · simp only [s3]
    exact ev_hit _ _ _ _ _ (by rw [alookup_cons, if_pos rfl])
  · simp only [s4]
  · simp only [s5]
    exact aw_hit _ _ _ _ _ (by rw [alookup_cons, if_pos rfl])
  · simp only [s6]

/-- Witness for C2 (amended), at `pSample` with an empty cache: team 1
has data for 2024 (success cases), team 2 resp. event `"2024def"` do
not (failure cases). -/
theorem claim2_witness :
    alookup ((1 : Nat), (2024 : Int)) Cache.empty.sb = none ∧
    pSample.getTeamYear 1 2024 = some (29, 10) ∧
    alookup ((2 : Nat), (2024 : Int)) Cache.empty.sb = none ∧
    pSample.getTeamYear 2 2024 = none ∧
    alookup ((1 : Nat), (2024 : Int)) Cache.empty.events = none ∧
    pSample.getTeamEventsByYearKeys 1 2024 = some ["2024abc", "2024def"] ∧
    alookup ((2 : Nat), (2024 : Int)) Cache.empty.events = none ∧
    pSample.getTeamEventsByYearKeys 2 2024 = none ∧
    alookup ((1 : Nat), "2024abc") Cache.empty.awards = none ∧
    pSample.getTeamEventAwards 1 "2024abc" = some [⟨"2024abc", "Winner"⟩] ∧
    alookup ((1 : Nat), "2024def") Cache.empty.awards = none ∧
    pSample.getTeamEventAwards 1 "2024def" = none ∧
    (((get_team_statbotics pSample 1 2024 Cache.empty).2.2 = 1 ∧
      get_team_statbotics pSample 1 2024 (get_team_statbotics pSample 1 2024 Cache.empty).2.1 =
        ((get_team_statbotics pSample 1 2024 Cache.empty).1,
         (get_team_statbotics pSample 1 2024 Cache.empty).2.1, 0)) ∧
     (get_team_statbotics pSample 2 2024 Cache.empty = (TeamStats.empty, Cache.empty, 1) ∧
      (get_team_statbotics pSample 2 2024
        (get_team_statbotics pSample 2 2024 Cache.empty).2.1).2.2 = 1) ∧
     ((get_team_events pSample 1 2024 Cache.empty).2.2 = 1 ∧
      get_team_events pSample 1 2024 (get_team_events pSample 1 2024 Cache.empty).2.1 =
        ((get_team_events pSample 1 2024 Cache.empty).1,
         (get_team_events pSample 1 2024 Cache.empty).2.1, 0)) ∧
     (get_team_events pSample 2 2024 Cache.empty = ([], Cache.empty, 1) ∧
      (get_team_events pSample 2 2024
        (get_team_events pSample 2 2024 Cache.empty).2.1).2.2 = 1) ∧
     ((get_team_event_awards pSample 1 "2024abc" Cache.empty).2.2 = 1 ∧
      get_team_event_awards pSample 1 "2024abc"
          (get_team_event_awards pSample 1 "2024abc" Cache.empty).2.1 =
        ((get_team_event_awards pSample 1 "2024abc" Cache.empty).1,
         (get_team_event_awards pSample 1 "2024abc" Cache.empty).2.1, 0)) ∧
     (get_team_event_awards pSample 1 "2024def" Cache.empty = ([], Cache.empty, 1) ∧
      (get_team_event_awards pSample 1 "2024def"
        (get_team_event_awards pSample 1 "2024def" Cache.empty).2.1).2.2 = 1)) :=
  ⟨rfl, by decide, rfl, by decide, rfl, by decide, rfl, by decide, rfl, by decide,
   rfl, by decide,
   claim2_success_results_cached pSample Cache.empty 1 2 1 2 1 1 2024 2024 2024 2024
     "2024abc" "2024def" (29, 10) ["2024abc", "2024def"] [⟨"2024abc", "Winner"⟩]
     rfl (by decide) rfl (by decide) rfl (by decide) rfl (by decide) rfl (by decide)
     rfl (by decide)⟩

/-- C3: For every (team, year) whose season-metric provider call raises
or reports no data (and which is not cached), `get_team_statbotics`
returns the empty sentinel record (metric and rank both `'N/A'`) instead
of raising, and the per-year aggregation embeds that sentinel in the row
fragment. -/
theorem claim3_missing_metric_sentinel (p : Provider) (t : Nat) (y : Int) (c : Cache)
    (hsb : alookup (t, y) c.sb = none) (hp : p.getTeamYear t y = none) :
    get_team_statbotics p t y c = (TeamStats.empty, c, 1) ∧
    TeamStats.empty = ⟨Cell.strCell "N/A", Cell.strCell "N/A"⟩ ∧
    (fetch_team_year_data p t y c).1.epa = Cell.strCell "N/A" ∧
    (fetch_team_year_data p t y c).1.rank = Cell.strCell "N/A" := by
  have h := sb_miss_none p t y c hsb hp
  refine ⟨h, rfl, ?_, ?_⟩
  · unfold fetch_team_year_data
    simp only [h, TeamStats.empty]
  · unfold fetch_team_year_data
    simp only [h, TeamStats.empty]

/-- Witness for C3: team 2 has no Statbotics data in `pSample`. -/
theorem claim3_witness :
    alookup ((2 : Nat), (2024 : Int)) Cache.empty.sb = none ∧
    pSample.getTeamYear 2 2024 = none ∧
    (get_team_statbotics pSample 2 2024 Cache.empty = (TeamStats.empty, Cache.empty, 1) ∧
     TeamStats.empty = ⟨Cell.strCell "N/A", Cell.strCell "N/A"⟩ ∧
     (fetch_team_year_data pSample 2 2024 Cache.empty).1.epa = Cell.strCell "N/A" ∧
     (fetch_team_year_data pSample 2 2024 Cache.empty).1.rank = Cell.strCell "N/A") :=
  ⟨rfl, by decide, claim3_missing_metric_sentinel pSample 2 2024 Cache.empty rfl (by decide)⟩

/-- C4: For every team and year range (under a coherent cache),
`fetch_team_data` aggregates every year in `[start_year, end_year]`
inclusive, concatenating the (metric, rank, awards) fragments in
chronological order after the team identifier; and a year whose
provider lookups all fail contributes the empty-sentinel fragment —
it degrades to empty without aborting or affecting the other years'
fragments. -/
theorem claim4_per_year_isolation (p : Provider) (c : Cache) (t : Nat)
    (start_year end_year y : Int) (hc : Coherent p c)
    (_hy : y ∈ pyRange start_year (end_year + 1))
    (h1 : p.getTeamYear t y = none) (h2 : p.getTeamEventsByYearKeys t y = none) :
    (fetch_team_data p t start_year end_year c).1 =
      Cell.natCell t :: (pyRange start_year (end_year + 1)).flatMap (fragSpec p t) ∧
    teamYearSpec p t y = ⟨Cell.strCell "N/A", Cell.strCell "N/A", ""⟩ := by
  refine ⟨(fetch_team_data_spec p t start_year end_year c hc).1, ?_⟩
  unfold teamYearSpec sbSpec yearAwardsSpec eventsSpec
  simp only [h1, h2]
  rfl

/-- Witness for C4: team 1 over 2023–2024 in `pSample`; year 2023 has
no data at all and degrades to the sentinel fragment. -/
theorem claim4_witness :
    Coherent pSample Cache.empty ∧
    (2023 : Int) ∈ pyRange 2023 (2024 + 1) ∧
    pSample.getTeamYear 1 2023 = none ∧
    pSample.getTeamEventsByYearKeys 1 2023 = none ∧
    ((fetch_team_data pSample 1 2023 2024 Cache.empty).1 =
      Cell.natCell 1 :: (pyRange 2023 (2024 + 1)).flatMap (fragSpec pSample 1) ∧
     teamYearSpec pSample 1 2023 = ⟨Cell.strCell "N/A", Cell.strCell "N/A", ""⟩) :=
  ⟨coherent_empty pSample, by decide, by decide, by decide,
   claim4_per_year_isolation pSample Cache.empty 1 2023 2024 2023
     (coherent_empty pSample) (by decide) (by decide) (by decide)⟩

/-- C5: In deep-search mode (under a coherent cache), when the roster
loop completes, the team set handed to the standard aggregation is a
duplicate-free list whose members are exactly the union of the
per-season rosters of the event code across the `deep_search_years`
consecutive seasons ending at the event year. -/
theorem claim5_deep_search_union (p : Provider) (event_year : Int) (dsy : Nat)
    (code : String) (c : Cache) (ts : List Nat) (c' : Cache) (hc : Coherent p c)
    (h : deepSearchTeams p event_year dsy code c = (Except.ok ts, c')) :
    ts.Nodup ∧
    ts.Perm ((pyRange (event_year - dsy + 1) (event_year + 1)).flatMap
      (fun y => (p.getEventTeamsSimple (toString y ++ code)).getD [])).dedup := by
  unfold deepSearchTeams at h
  cases hr : (deepSearchLoop p code (pyRange (event_year - dsy + 1) (event_year + 1)) [] c).1 with
  | error e =>
      simp only [hr] at h
      rw [Prod.ext_iff] at h
      exact Except.noConfusion h.1
  | ok acc =>
      simp only [hr] at h
      rw [Prod.ext_iff] at h
      have hts : acc.dedup = ts := Except.ok.injEq .. ▸ h.1
      subst hts
      obtain ⟨hacc, -⟩ := deepSearchLoop_spec p code _ [] c hc acc hr
      rw [List.nil_append] at hacc
      refine ⟨List.nodup_dedup acc, ?_⟩
      refine (List.perm_ext_iff_of_nodup (List.nodup_dedup acc) (List.nodup_dedup _)).mpr ?_
      intro a
      rw [List.mem_dedup, List.mem_dedup, hacc, List.mem_flatMap, List.mem_flatMap]
      constructor
      · rintro ⟨y, hy, ha⟩
        refine ⟨y, hy, ?_⟩
        have := (List.perm_insertionSort (fun a b : Nat => a ≤ b) _).mem_iff.mp ha
        exact this
      · rintro ⟨y, hy, ha⟩
        refine ⟨y, hy, ?_⟩
        exact (List.perm_insertionSort (fun a b : Nat => a ≤ b) _).mem_iff.mpr ha

/-- Witness for C5: one season of code `"abc"` in `pSample`. -/
theorem claim5_witness :
    Coherent pSample Cache.empty ∧
    deepSearchTeams pSample 2024 1 "abc" Cache.empty =
      (Except.ok [100, 254, 9999], ⟨[], [], [], [("2024abc", [100, 254, 9999])]⟩) ∧
    (([100, 254, 9999] : List Nat).Nodup ∧
     ([100, 254, 9999] : List Nat).Perm ((pyRange (2024 - 1 + 1) (2024 + 1)).flatMap
       (fun y => (pSample.getEventTeamsSimple (toString y ++ "abc")).getD [])).dedup) :=
  ⟨coherent_empty pSample, rfl,
   claim5_deep_search_union pSample 2024 1 "abc" Cache.empty [100, 254, 9999]
     ⟨[], [], [], [("2024abc", [100, 254, 9999])]⟩ (coherent_empty pSample) rfl⟩

/-- C6: The roster lookup returns the event's team numbers sorted
ascending; if the provider call fails it raises instead of degrading,
and in `main` that error propagates to the top and aborts the entire
run with no output attempted. -/
theorem claim6_roster_failure_aborts (p : Provider) (event_year : Int) (event_code : String)
    (ytf : Nat) (order : List Nat) (failed : Nat → Bool) (k2 : String) (raw : List Nat)
    (hfail : p.getEventTeamsSimple (toString event_year ++ event_code) = none)
    (hok : p.getEventTeamsSimple k2 = some raw) :
    main_model p event_year event_code ytf order failed =
      Except.error ("Could not fetch teams for event " ++ (toString event_year ++ event_code) ++
        ". Please check your internet connection and API key.") ∧
    (get_event_teams p k2 Cache.empty).1 = Except.ok (pySorted raw) ∧
    List.Sorted (fun a b => a ≤ b) (pySorted raw) := by
  refine ⟨?_, ?_, ?_⟩
  · have h := teams_miss_none p (toString event_year ++ event_code) Cache.empty rfl hfail
    unfold main_model
    simp only [h]
  · have h := (get_event_teams_spec p k2 Cache.empty (coherent_empty p)).1
    rw [h]
    unfold eventTeamsSpec
    rw [hok]
  · exact List.sorted_insertionSort (fun a b => a ≤ b) raw

/-- Witness for C6: in `pSample` the key `"2024xyz"` is unknown
(run aborts) while `"2024abc"` has an unsorted roster. -/
theorem claim6_witness :
    pSample.getEventTeamsSimple (toString (2024 : Int) ++ "xyz") = none ∧
    pSample.getEventTeamsSimple "2024abc" = some [254, 100, 9999] ∧
    (main_model pSample 2024 "xyz" 1 [] (fun _ => false) =
      Except.error ("Could not fetch teams for event " ++ (toString (2024 : Int) ++ "xyz") ++
        ". Please check your internet connection and API key.") ∧
     (get_event_teams pSample "2024abc" Cache.empty).1 =
       Except.ok (pySorted [254, 100, 9999]) ∧
     List.Sorted (fun a b => a ≤ b) (pySorted [254, 100, 9999])) :=
  ⟨by decide, by decide,
   claim6_roster_failure_aborts pSample 2024 "xyz" 1 [] (fun _ => false) "2024abc"
     [254, 100, 9999] (by decide) (by decide)⟩

/-- C7: The header row is `Team` followed, for each of the
`years_to_fetch` years ending at the event year in ascending order, by
the three columns `{year} EPA`, `{year} Rank`, `{year} Awards`
(1 + 3 × years_to_fetch header cells); every data row has exactly
1 + 3 × years_to_fetch values; and data rows are written starting at
the sheet row immediately below the header (0-based data row `i` goes
to sheet row `i + 2`, the header being row 1). -/
theorem claim7_header_and_row_layout (event_year : Int) (ytf : Nat) (p : Provider)
    (t : Nat) (c : Cache) (order : List Nat) (failed : Nat → Bool)
    (w : (Nat × Nat) × Cell)
    (hw : w ∈ writeData (runBatch p (event_year - ytf + 1) event_year order failed c)) :
    makeHeaders event_year ytf = "Team" :: (List.range ytf).flatMap (fun i =>
      [toString (event_year - ytf + 1 + i) ++ " EPA",
       toString (event_year - ytf + 1 + i) ++ " Rank",
       toString (event_year - ytf + 1 + i) ++ " Awards"]) ∧
    (makeHeaders event_year ytf).length = 1 + 3 * ytf ∧
    (fetch_team_data p t (event_year - ytf + 1) event_year c).1.length = 1 + 3 * ytf ∧
    (∃ i j, i < (runBatch p (event_year - ytf + 1) event_year order failed c).length ∧
      w.1 = (i + 2, j + 1)) ∧
    2 ≤ w.1.1 := by
  obtain ⟨i, j, hi, hj, hwe⟩ := (writeData_mem_iff _ w).mp hw
  refine ⟨makeHeaders_eq event_year ytf, makeHeaders_length event_year ytf, ?_, ?_, ?_⟩
  · rw [fetch_team_data_length]
    omega
  · exact ⟨i, j, hi, by rw [hwe]⟩
  · subst hwe
    show 2 ≤ i + 2
    omega

/-- Witness for C7: a one-team, one-year export at `pSample`; the
chosen write is the team-number cell at sheet position (2, 1). -/
theorem claim7_witness :
    (((2 : Nat), (1 : Nat)), Cell.natCell 1) ∈
      writeData (runBatch pSample (2024 - 1 + 1) 2024 [1] (fun _ => false) Cache.empty) ∧
    (makeHeaders 2024 1 = "Team" :: (List.range 1).flatMap (fun i =>
      [toString ((2024 : Int) - 1 + 1 + i) ++ " EPA",
       toString ((2024 : Int) - 1 + 1 + i) ++ " Rank",
       toString ((2024 : Int) - 1 + 1 + i) ++ " Awards"]) ∧
     (makeHeaders 2024 1).length = 1 + 3 * 1 ∧
     (fetch_team_data pSample 1 (2024 - 1 + 1) 2024 Cache.empty).1.length = 1 + 3 * 1 ∧
     (∃ i j, i < (runBatch pSample (2024 - 1 + 1) 2024 [1] (fun _ => false) Cache.empty).length ∧
       (((2 : Nat), (1 : Nat)), Cell.natCell 1).1 = (i + 2, j + 1)) ∧
     2 ≤ (((2 : Nat), (1 : Nat)), Cell.natCell 1).1.1) :=
  ⟨by decide,
   claim7_header_and_row_layout 2024 1 pSample 1 Cache.empty [1] (fun _ => false)
     (((2 : Nat), (1 : Nat)), Cell.natCell 1) (by decide)⟩

/-- C8: For every (team, year) under a coherent cache, the awards text
of the Team-Year Row Fragment is the newline-join of the concatenation
of the award lists of the team's events for that year, in the order the
events were returned (`eventsSpec` order), and it is the empty string
when there are no awards. -/
theorem claim8_awards_newline_join (p : Provider) (t : Nat) (y : Int) (c : Cache)
    (hc : Coherent p c) :
    (fetch_team_year_data p t y c).1.awards =
      String.intercalate "\n" ((eventsSpec p t y).flatMap (fun e => awardsSpec p t e)) ∧
    ((eventsSpec p t y).flatMap (fun e => awardsSpec p t e) = [] →
      (fetch_team_year_data p t y c).1.awards = "") := by
  have h := (fetch_team_year_data_spec p t y c hc).1
  rw [h]
  constructor
  · show (if yearAwardsSpec p t y = [] then ""
      else String.intercalate "\n" (yearAwardsSpec p t y)) = _
    by_cases hz : yearAwardsSpec p t y = []
    · rw [if_pos hz]
      have hz' : (eventsSpec p t y).flatMap (fun e => awardsSpec p t e) = [] := hz
      rw [hz']
      rfl
    · rw [if_neg hz]
      rfl
  · intro hz
    show (if yearAwardsSpec p t y = [] then ""
      else String.intercalate "\n" (yearAwardsSpec p t y)) = ""
    exact if_pos hz

/-- Witness for C8: team 1 in 2024 at `pSample` has two events, one
carrying a single award. -/
theorem claim8_witness :
    Coherent pSample Cache.empty ∧
    ((fetch_team_year_data pSample 1 2024 Cache.empty).1.awards =
      String.intercalate "\n"
        ((eventsSpec pSample 1 2024).flatMap (fun e => awardsSpec pSample 1 e)) ∧
     ((eventsSpec pSample 1 2024).flatMap (fun e => awardsSpec pSample 1 e) = [] →
       (fetch_team_year_data pSample 1 2024 Cache.empty).1.awards = "")) :=
  ⟨coherent_empty pSample,
   claim8_awards_newline_join pSample 1 2024 Cache.empty (coherent_empty pSample)⟩

/-- C9 counterexample: the claim says progress is reported after each
settled task, succeeded or raised.  In the code the progress update
sits inside the `try` success branch, so a batch whose single task
raises emits no report at all (the claim would require one report,
`(1, 1)`). -/
theorem claim9_counterexample :
    progressReports [false] = [] ∧
    (progressReports [false]).length ≠ [false].length := by
  decide

/-- C9 (amended): a progress report is emitted only when a task settles
successfully; each emitted report equals `(completedCount, totalCount)`
where `completedCount` counts every settled task so far — successes and
failures alike — and `totalCount` is the number of submitted tasks. -/
theorem claim9_progress_reports (outcomes : List Bool) :
    progressReports outcomes =
      (outcomes.enum.filter (fun ib => ib.2)).map (fun ib => (ib.1 + 1, outcomes.length)) := by
  unfold progressReports
  rw [progressReportsAux_eq]
  rfl

/-- C10: In the web export the header row always ends with the four
summary columns `Wins`, `Finalists`, `Impact`, `EI`, but no data row
ever writes a value into those columns: every data row has exactly
1 + 3 × years_to_fetch values and the cell-writing loop is bounded by
the row's length, so every written cell lands in a column at or before
1 + 3 × years_to_fetch, leaving the four summary cells of every data
row empty. -/
theorem claim10_summary_columns_never_written (event_year : Int) (ytf : Nat) (p : Provider)
    (order : List Nat) (failed : Nat → Bool) (c : Cache) (w : (Nat × Nat) × Cell)
    (hw : w ∈ writeData (runBatch p (event_year - ytf + 1) event_year order failed c)) :
    webHeaders event_year ytf =
      makeHeaders event_year ytf ++ ["Wins", "Finalists", "Impact", "EI"] ∧
    (webHeaders event_year ytf).length = 5 + 3 * ytf ∧
    (webHeaders event_year ytf).drop (1 + 3 * ytf) = ["Wins", "Finalists", "Impact", "EI"] ∧
    w.1.2 ≤ 1 + 3 * ytf := by
  refine ⟨webHeaders_eq event_year ytf, ?_, ?_, ?_⟩
  · rw [webHeaders_eq, List.length_append, makeHeaders_length]
    show 1 + 3 * ytf + 4 = 5 + 3 * ytf
    omega
  · rw [webHeaders_eq, ← makeHeaders_length event_year ytf]
    exact List.drop_left _ _
  · obtain ⟨i, j, hi, hj, hwe⟩ := (writeData_mem_iff _ w).mp hw
    have hrow : (runBatch p (event_year - ytf + 1) event_year order failed c).getD i [] =
        (runBatch p (event_year - ytf + 1) event_year order failed c)[i] :=
      List.getD_eq_getElem _ _ hi
    have hmem : (runBatch p (event_year - ytf + 1) event_year order failed c)[i] ∈
        runBatch p (event_year - ytf + 1) event_year order failed c :=
      List.getElem_mem hi
    have hlen := runBatch_row_length p (event_year - ytf + 1) event_year order failed c _ hmem
    rw [hrow, hlen] at hj
    subst hwe
    show j + 1 ≤ 1 + 3 * ytf
    omega

/-- Witness for C10: the one-team, one-year web export; the chosen
write is the awards cell at sheet position (2, 4), the last data
column before the summary block. -/
theorem claim10_witness :
    (((2 : Nat), (4 : Nat)), Cell.strCell "2024abc - Winner") ∈
      writeData (runBatch pSample (2024 - 1 + 1) 2024 [1] (fun _ => false) Cache.empty) ∧
    (webHeaders 2024 1 = makeHeaders 2024 1 ++ ["Wins", "Finalists", "Impact", "EI"] ∧
     (webHeaders 2024 1).length = 5 + 3 * 1 ∧
     (webHeaders 2024 1).drop (1 + 3 * 1) = ["Wins", "Finalists", "Impact", "EI"] ∧
     (((2 : Nat), (4 : Nat)), Cell.strCell "2024abc - Winner").1.2 ≤ 1 + 3 * 1) :=
  ⟨by decide,
   claim10_summary_columns_never_written 2024 1 pSample [1] (fun _ => false) Cache.empty
     (((2 : Nat), (4 : Nat)), Cell.strCell "2024abc - Winner") (by decide)⟩

end FRCFetch
